import Mathlib

/-!
Verification of the student deadline-reminder pipeline (`src/main.py`).

The pipeline is embedded shallowly:
* Python strings stay `String`; helpers (`pySplit`, `pyLower`, `pyEndsWith`,
  `takeDatePart`) model the exact Python string operations used by the code
  (`str.split`, `str.lower`, `str.endswith`, `str.split(" ")[0]`).
* `datetime.strptime(s, "%Y-%m-%d").date()` is modelled by `parseDateYMD`,
  including the strict four-digit year, one-or-two-digit month/day tokens and
  calendar validity (leap years) that `datetime` enforces.
* Side effects (admin alerts, reminder SMTP attempts) become an explicit
  event trace; SMTP transport is an oracle `String → Option String` giving,
  per recipient, either success (`none`) or the raised error text (`some e`).
* The uncaught Python exceptions that can escape `main_reminder_logic`
  (evaluating `EMAIL_USER.split("@")[1]` when `EMAIL_USER` is unset or has
  no "@") are modelled by the `Crash` type threaded through the dispatcher.
-/

namespace Proyecto

/-- Python `str.split(c)` on a list of characters: splits at every
occurrence of `c`, keeping empty segments (`"".split(c) == [""]`). -/
def splitOnChar (c : Char) : List Char → List (List Char)
  | [] => [[]]
  | a :: rest =>
    let r := splitOnChar c rest
    if a = c then [] :: r
    else
      match r with
      | [] => [[a]]
      | h :: t => (a :: h) :: t

/-- Python `s.split(c)` for a single-character separator. -/
def pySplit (s : String) (c : Char) : List String :=
  (splitOnChar c s.toList).map String.mk

/-- Python `str.lower` (models `df.columns.str.lower()`). -/
def pyLower (s : String) : String :=
  String.mk (s.toList.map Char.toLower)

/-- Python `s.endswith(suf)`. -/
def pyEndsWith (s suf : String) : Bool :=
  List.isSuffixOf suf.toList s.toList

/-- Python `str(x).split(" ")[0]`: everything before the first space. -/
def takeDatePart (s : String) : String :=
  String.mk (s.toList.takeWhile (fun c => c != ' '))

/-- Value of a string of decimal digits. -/
def digitsToNat (l : List Char) : Nat :=
  l.foldl (fun acc c => acc * 10 + (c.toNat - 48)) 0

/-- A calendar date as produced by `datetime.strptime(_, "%Y-%m-%d").date()`. -/
structure Date where
  year : Nat
  month : Nat
  day : Nat
deriving DecidableEq, Repr

/-- `datetime.date` comparison `a < b`: lexicographic on (year, month, day). -/
def Date.ltB (a b : Date) : Bool :=
  Nat.blt a.year b.year ||
    (a.year == b.year && (Nat.blt a.month b.month ||
      (a.month == b.month && Nat.blt a.day b.day)))

/-- Gregorian leap-year rule used by `datetime`. -/
def isLeap (y : Nat) : Bool :=
  (y % 4 == 0 && y % 100 != 0) || (y % 400 == 0)

/-- Days in a month, as validated by `datetime`. -/
def daysInMonth (y m : Nat) : Nat :=
  if m = 2 then (if isLeap y then 29 else 28)
  else if m = 4 ∨ m = 6 ∨ m = 9 ∨ m = 11 then 30
  else 31

/-- `datetime.strptime(s, "%Y-%m-%d")`: a four-digit year, a one-or-two digit
month in 1..12, a one-or-two digit day valid for that month and year, the
three joined by literal dashes with nothing left over; year 0 is rejected
(`datetime.MINYEAR = 1`).  Returns `none` exactly when Python raises
`ValueError`. -/
def parseDateYMD (s : String) : Option Date :=
  match pySplit s '-' with
  | [ys, ms, ds] =>
    if ys.toList.length = 4 ∧ ys.toList.all Char.isDigit = true
        ∧ 1 ≤ ms.toList.length ∧ ms.toList.length ≤ 2
        ∧ ms.toList.all Char.isDigit = true
        ∧ 1 ≤ ds.toList.length ∧ ds.toList.length ≤ 2
        ∧ ds.toList.all Char.isDigit = true then
      let y := digitsToNat ys.toList
      let m := digitsToNat ms.toList
      let d := digitsToNat ds.toList
      if 1 ≤ y ∧ 1 ≤ m ∧ m ≤ 12 ∧ 1 ≤ d ∧ d ≤ daysInMonth y m then
        some ⟨y, m, d⟩
      else none
    else none
  | _ => none

/-- A string in canonical zero-padded `YYYY-MM-DD` form: it parses as a
calendar date and has exactly the ten characters of the canonical layout. -/
def isCanonicalYMD (s : String) : Bool :=
  s.toList.length == 10 && (parseDateYMD s).isSome

/-- The process environment the script reads at import time:
`EMAIL_USER`, `EMAIL_PASSWORD` and `ADMIN_EMAIL` (each `none` when the
environment variable is unset). -/
structure Config where
  EMAIL_USER : Option String
  EMAIL_PASSWORD : Option String
  ADMIN_EMAIL : Option String
deriving DecidableEq, Repr

/-- Python truthiness of an optional string (`not x` is true for `None`
and for the empty string). -/
def truthy : Option String → Bool
  | none => false
  | some s => !s.isEmpty

/-- One pending task (`tareas_pendientes` entry). -/
structure Task where
  nombre : String
  vencimiento : String
  entregado : Bool
deriving DecidableEq, Repr

/-- One student record synthesized by `load_students_from_excel`. -/
structure Student where
  id : Nat
  nombre : String
  email : String
  tareas_pendientes : List Task
deriving DecidableEq, Repr

/-- What `send_admin_alert` does when invoked: skipped because
`ADMIN_EMAIL` or the credentials are unset/empty, or an SMTP attempt. -/
inductive AlertOutcome where
  | skippedUnconfigured
  | attempted
deriving DecidableEq, Repr

/-- Observable side effects of the pipeline: each `send_admin_alert`
invocation and each `send_email_reminder` SMTP attempt. -/
inductive Event where
  | alertCall (subject body : String) (outcome : AlertOutcome)
  | reminderAttempt (toEmail subject body : String) (delivered : Bool)
deriving DecidableEq, Repr

/-- `send_admin_alert(subject, body)`: no-op when `ADMIN_EMAIL` or the
credentials are falsy; otherwise a single best-effort SMTP attempt whose
own failure is caught and only logged. -/
def send_admin_alert (cfg : Config) : AlertOutcome :=
  if !truthy cfg.ADMIN_EMAIL || !truthy cfg.EMAIL_USER
      || !truthy cfg.EMAIL_PASSWORD then
    .skippedUnconfigured
  else
    .attempted

/-- The event recorded for one `send_admin_alert(subject, body)` call. -/
def mkAlert (cfg : Config) (subject body : String) : Event :=
  .alertCall subject body (send_admin_alert cfg)

/-- One data row of the parsed table, restricted to the three cells the
loader reads; `vencimiento` holds the Python `str()` of the due-date cell. -/
structure Row where
  nombre : String
  email : String
  vencimiento : String
deriving DecidableEq, Repr

/-- The table `pandas` produces on a successful read: the (pre-lowering)
column headers and the data rows in file order. -/
structure Table where
  columns : List String
  rows : List Row
deriving DecidableEq, Repr

/-- Outcome of `pd.read_excel` / `pd.read_csv` on the input file:
a parsed table, `FileNotFoundError`, or any other exception. -/
inductive FileContent where
  | table (t : Table)
  | missing
  | corrupt (msg : String)
deriving DecidableEq, Repr

/-- `required_cols = ["nombre", "email", "vencimiento"]`. -/
def requiredCols : List String := ["nombre", "email", "vencimiento"]

/-- Python `repr` of a list of strings, as printed by an f-string. -/
def pyListRepr (l : List String) : String :=
  "[" ++ String.intercalate ", " (l.map (fun s => "\x27" ++ s ++ "\x27")) ++ "]"

/-- The fixed task label given to every synthesized student. -/
def taskLabel : String := "Entrega Final del Curso (Adulto Mayor)"

/-- One student synthesized from row `r` at (zero-based) position `idx`:
`id = index + 1`, one task with the fixed label, due date
`str(row["vencimiento"]).split(" ")[0]`, `entregado = False`. -/
def mkStudent (idx : Nat) (r : Row) : Student :=
  { id := idx + 1, nombre := r.nombre, email := r.email,
    tareas_pendientes :=
      [{ nombre := taskLabel, vencimiento := takeDatePart r.vencimiento,
         entregado := false }] }

/-- The `for index, row in df.iterrows()` loop building `alumnos_list`. -/
def loadRows : Nat → List Row → List Student
  | _, [] => []
  | i, r :: rs => mkStudent i r :: loadRows (i + 1) rs

/-- `load_students_from_excel(file_path)`: extension check, column
validation, per-row synthesis, and the four alerting failure branches,
returning the student list together with the emitted alert events. -/
def load_students_from_excel (cfg : Config) (path : String)
    (fs : FileContent) : List Student × List Event :=
  if pyEndsWith path ".xlsx" || pyEndsWith path ".csv" then
    match fs with
    | .missing =>
      ([], [mkAlert cfg "ARCHIVO DE DATOS NO ENCONTRADO"
        ("Error: No se encontró el archivo " ++ path
          ++ ". El script no puede continuar.")])
    | .corrupt e =>
      ([], [mkAlert cfg "ERROR CRÍTICO EN LA LECTURA DE EXCEL/CSV"
        ("Error crítico al procesar el archivo Excel: " ++ e)])
    | .table t =>
      if requiredCols.all (fun c => (t.columns.map pyLower).contains c) then
        (loadRows 0 t.rows, [])
      else
        ([], [mkAlert cfg "COLUMNAS FALTANTES EN EXCEL/CSV"
          ("Error: El archivo Excel debe contener las columnas: "
            ++ pyListRepr requiredCols ++ ". Columnas encontradas: "
            ++ pyListRepr (t.columns.map pyLower))])
  else
    ([], [mkAlert cfg "FORMATO DE ARCHIVO INVÁLIDO"
      "Error: El archivo debe ser .xlsx o .csv"])

/-- `EXCEL_FILE_PATH = "alumnos_tareas.xlsx"`. -/
def EXCEL_FILE_PATH : String := "alumnos_tareas.xlsx"

/-- `send_email_reminder(to_email, subject, body)`: one SMTP attempt; on
success returns `True`; on any exception logs, sends one admin alert
carrying the recipient and the error, and returns `False`.  The transport
oracle `tr` gives `none` for success or `some e` for the raised error. -/
def send_email_reminder (cfg : Config) (tr : String → Option String)
    (toEmail subject body : String) : Bool × List Event :=
  match tr toEmail with
  | none => (true, [.reminderAttempt toEmail subject body true])
  | some e =>
    (false,
      [.reminderAttempt toEmail subject body false,
       mkAlert cfg "FALLO DE ENVÍO DE CORREO A ESTUDIANTE"
         ("FALLO DE ENVÍO SMTP:\n\nError al enviar correo al alumno "
           ++ toEmail ++ ": " ++ e
           ++ "\n\nRevisa la configuración de EMAIL_USER y EMAIL_PASSWORD.")])

/-- The warning text recorded for an unparsable due date. -/
def warningMsg (nombre tareaNombre venc : String) : String :=
  "Advertencia: Formato de fecha inválido para el alumno " ++ nombre
    ++ " en la tarea " ++ tareaNombre ++ " con valor \x27" ++ venc
    ++ "\x27. Saltando tarea."

/-- The label assigned when the due date equals today. -/
def estadoHoy : String := "**¡PLAZO FINAL HOY!**"

/-- The label assigned when the due date is strictly before today; it
embeds the original due-date string. -/
def estadoExpirado (venc : String) : String :=
  "**PLAZO EXPIRADO** (Fecha límite: " ++ venc ++ ")"

/-- Result of evaluating one task in the inner loop of
`main_reminder_logic`: skipped as submitted, skipped with a data warning,
not yet due (no status), or actionable with its status label. -/
inductive TaskEval where
  | skippedSubmitted
  | badDate (warning : String)
  | notYetDue
  | actionable (estado : String)
deriving DecidableEq, Repr

/-- The per-task body of the inner loop: the `entregado` guard, the
`strptime` parse with its `ValueError` handler, and the date comparison. -/
def evalTask (hoy : Date) (nombre : String) (t : Task) : TaskEval :=
  if t.entregado then .skippedSubmitted
  else
    match parseDateYMD t.vencimiento with
    | none => .badDate (warningMsg nombre t.nombre t.vencimiento)
    | some fecha =>
      if fecha = hoy then .actionable estadoHoy
      else if Date.ltB fecha hoy then .actionable (estadoExpirado t.vencimiento)
      else .notYetDue

/-- The inner loop over one student's tasks: collects
`tareas_para_recordar` pairs and the appended `data_warnings`, in order. -/
def evalTasks (hoy : Date) (nombre : String) :
    List Task → List (String × String) × List String
  | [] => ([], [])
  | t :: ts =>
    let r := evalTasks hoy nombre ts
    match evalTask hoy nombre t with
    | .actionable e => ((t.nombre, e) :: r.1, r.2)
    | .badDate w => (r.1, w :: r.2)
    | _ => r

/-- `"\n".flatten(f"- {t[0]} ({t[1]})" for t in tareas_para_recordar)`. -/
def listaTareasStr (ps : List (String × String)) : String :=
  String.intercalate "\n"
    (ps.map (fun p => "- " ++ p.1 ++ " (" ++ p.2 ++ ")"))

/-- The reminder subject line. -/
def reminderSubject : String :=
  "🚨 URGENTE: Notificación sobre el Plazo Final del Curso"

/-- Uncaught exceptions that can escape `main_reminder_logic` while the
body f-string evaluates `EMAIL_USER.split("@")[1]`. -/
inductive Crash where
  | attributeErrorNoneSplit
  | indexErrorNoAt
deriving DecidableEq, Repr

/-- `EMAIL_USER.split("@")[1]`: `AttributeError` when `EMAIL_USER` is
`None`, `IndexError` when it contains no `"@"`, otherwise the text after
the first `"@"` and before any second one. -/
def emailUserDomain : Option String → Except Crash String
  | none => .error .attributeErrorNoneSplit
  | some u =>
    match (pySplit u '@').get? 1 with
    | none => .error .indexErrorNoAt
    | some d => .ok d

/-- The reminder body f-string of `main_reminder_logic`, with the three
interpolations `nombre`, `lista_tareas_str` and the sender domain. -/
def composeEmailBody (nombre lista dom : String) : String :=
  "\n            <html><body>\n"
    ++ "                <p>Estimado(a) **" ++ nombre ++ "**:</p>\n"
    ++ "                <p>Este es un **AVISO IMPORTANTE** para informarte sobre el estado de tu **Plazo Final del Curso**. La entrega de este trabajo es **CRÍTICA** para la aprobación.</p>\n"
    ++ "                <p>El estado actual de tu fecha límite es el siguiente: </p>\n"
    ++ "                <pre>" ++ lista ++ "</pre>\n"
    ++ "                <p>\n"
    ++ "                    **Si tu plazo final es hoy**, por favor, no demores la entrega para evitar la expiración del plazo. \n"
    ++ "                    **Si el plazo ha expirado**, contáctanos de inmediato para regularizar tu situación.\n"
    ++ "                </p>\n"
    ++ "                <p>**Si ya realizaste la entrega, por favor, ignora este mensaje.**</p>\n"
    ++ "                <p>Saludos y mucho éxito,<br>El equipo de " ++ dom ++ "</p>\n"
    ++ "            </body></html>\n            "

/-- Result of a (partial) run of the dispatcher: the events emitted so
far, the `data_warnings` accumulated so far, and the uncaught exception,
if one was raised. -/
structure DispatchOut where
  events : List Event
  warnings : List String
  crash : Option Crash
deriving DecidableEq, Repr

/-- One iteration of the outer student loop of `main_reminder_logic`:
evaluate the student's tasks, and when at least one is actionable compose
the consolidated body (which may raise while evaluating
`EMAIL_USER.split("@")[1]`) and call `send_email_reminder` once. -/
def dispatchStudent (cfg : Config) (tr : String → Option String)
    (hoy : Date) (al : Student) : DispatchOut :=
  let r := evalTasks hoy al.nombre al.tareas_pendientes
  if r.1.isEmpty then ⟨[], r.2, none⟩
  else
    match emailUserDomain cfg.EMAIL_USER with
    | .error c => ⟨[], r.2, some c⟩
    | .ok dom =>
      ⟨(send_email_reminder cfg tr al.email reminderSubject
          (composeEmailBody al.nombre (listaTareasStr r.1) dom)).2,
        r.2, none⟩

/-- The events one student's iteration emits when the sender domain
resolved to `dom`: nothing without actionable tasks, otherwise the events
of the single consolidated `send_email_reminder` call. -/
def studentEvents (cfg : Config) (tr : String → Option String) (hoy : Date)
    (al : Student) (dom : String) : List Event :=
  let r := evalTasks hoy al.nombre al.tareas_pendientes
  if r.1.isEmpty then []
  else
    (send_email_reminder cfg tr al.email reminderSubject
      (composeEmailBody al.nombre (listaTareasStr r.1) dom)).2

/-- The outer student loop: students in roster order; an uncaught
exception stops the loop, otherwise events and warnings accumulate. -/
def dispatchAll (cfg : Config) (tr : String → Option String) (hoy : Date) :
    List Student → DispatchOut
  | [] => ⟨[], [], none⟩
  | al :: rest =>
    let o := dispatchStudent cfg tr hoy al
    match o.crash with
    | some c => ⟨o.events, o.warnings, some c⟩
    | none =>
      let r := dispatchAll cfg tr hoy rest
      ⟨o.events ++ r.events, o.warnings ++ r.warnings, r.crash⟩

/-- The body of the end-of-run batched data-quality alert. -/
def batchBody (ws : List String) : String :=
  "Se detectaron los siguientes problemas de formato de datos en el archivo de alumnos:\n\n"
    ++ String.intercalate "\n" ws
    ++ "\n\nPor favor, revisa el formato \x27YYYY-MM-DD\x27 en el archivo Excel o CSV."

/-- The subject of the end-of-run batched data-quality alert. -/
def flushSubject : String := "ADVERTENCIAS DE FORMATO DE DATOS EN EXCEL/CSV"

/-- `if data_warnings: send_admin_alert(...)` — the end-of-run flush. -/
def flushEvents (cfg : Config) (ws : List String) : List Event :=
  if ws.isEmpty then [] else [mkAlert cfg flushSubject (batchBody ws)]

/-- The dispatcher part of `main_reminder_logic` after loading: the
student loop followed (when no exception was raised) by the warning
flush. -/
def runDispatch (cfg : Config) (tr : String → Option String) (hoy : Date)
    (students : List Student) : DispatchOut :=
  let o := dispatchAll cfg tr hoy students
  match o.crash with
  | some _ => o
  | none => ⟨o.events ++ flushEvents cfg o.warnings, o.warnings, none⟩

/-- `main_reminder_logic()`: load the roster from `EXCEL_FILE_PATH`,
return early when it is empty, otherwise run the dispatcher.  Returns the
full event trace and the uncaught exception, if any. -/
def main_reminder_logic (cfg : Config) (tr : String → Option String)
    (fs : FileContent) (hoy : Date) : List Event × Option Crash :=
  let l := load_students_from_excel cfg EXCEL_FILE_PATH fs
  if l.1.isEmpty then (l.2, none)
  else
    let o := runDispatch cfg tr hoy l.1
    (l.2 ++ o.events, o.crash)

/-- Is this event a reminder SMTP attempt? -/
def isReminder : Event → Bool
  | .reminderAttempt _ _ _ _ => true
  | _ => false

/-- Is this event the end-of-run batched data-quality alert? -/
def isFlushAlert : Event → Bool
  | .alertCall subj _ _ => subj == flushSubject
  | _ => false

/-! Concrete inputs used to instantiate the theorems below. -/

/-- Transport oracle on which every SMTP send succeeds. -/
def trOk : String → Option String := fun _ => none

/-- Transport oracle failing exactly for `x@y.com` with error `boom`. -/
def trFailX : String → Option String :=
  fun s => if s = "x@y.com" then some "boom" else none

/-- Environment with none of the three variables set. -/
def cfgUnset : Config := ⟨none, none, none⟩

/-- Fully configured environment. -/
def cfgFull : Config :=
  ⟨some "profesor@uni.edu", some "secreto", some "admin@uni.edu"⟩

/-- A concrete run date. -/
def hoy0 : Date := ⟨2026, 10, 12⟩

/-- A roster row whose due date equals `hoy0`. -/
def rowHoy : Row := ⟨"Ana", "ana@example.com", "2026-10-12"⟩

/-- A parsed input file holding exactly `rowHoy`. -/
def fsHoy : FileContent :=
  .table ⟨["Nombre", "Email", "Vencimiento"], [rowHoy]⟩

/-- A parsed input file whose single row has an unparsable due date. -/
def tNoDate : Table :=
  ⟨["nombre", "email", "vencimiento"],
   [⟨"Ana", "ana@example.com", "not-a-date"⟩]⟩

/-- A parsed input file whose single due-date cell stringifies as a
pandas timestamp, `"2026-10-12 00:00:00"`. -/
def tTimestamp : Table :=
  ⟨["nombre", "email", "vencimiento"],
   [⟨"Ana", "ana@example.com", "2026-10-12 00:00:00"⟩]⟩

/-- A task due on `hoy0`. -/
def tareaHoy : Task := ⟨taskLabel, "2026-10-12", false⟩

/-- A task with an unparsable due date. -/
def tareaBad : Task := ⟨taskLabel, "not-a-date", false⟩

/-- A student with one task due on `hoy0`. -/
def alumnoHoy : Student := ⟨1, "Ana", "ana@example.com", [tareaHoy]⟩

/-- A student whose single task has an unparsable due date. -/
def alumnoBad : Student := ⟨2, "Benito", "benito@example.com", [tareaBad]⟩

/-- Student whose reminder send fails under `trFailX`. -/
def alumnoX : Student := ⟨1, "Xavi", "x@y.com", [tareaHoy]⟩

/-- Student whose reminder send succeeds under `trFailX`. -/
def alumnoY : Student := ⟨2, "Yola", "yola@example.com", [⟨taskLabel, "2026-10-10", false⟩]⟩

/-- A two-row table with mixed-case headers. -/
def tDos : Table :=
  ⟨["Nombre", "EMAIL", "Vencimiento"],
   [⟨"Ana", "ana@example.com", "2026-10-12"⟩,
    ⟨"Benito", "benito@example.com", "2026-09-30"⟩]⟩

/-- Which failure-category subject, if any, the loader's branch structure
assigns to an input: `none` on the success branch. -/
def loadOutcomeSubject (path : String) (fs : FileContent) : Option String :=
  if pyEndsWith path ".xlsx" || pyEndsWith path ".csv" then
    match fs with
    | .missing => some "ARCHIVO DE DATOS NO ENCONTRADO"
    | .corrupt _ => some "ERROR CRÍTICO EN LA LECTURA DE EXCEL/CSV"
    | .table t =>
      if requiredCols.all (fun c => (t.columns.map pyLower).contains c) then
        none
      else some "COLUMNAS FALTANTES EN EXCEL/CSV"
  else some "FORMATO DE ARCHIVO INVÁLIDO"

/-! ## Helper lemmas -/

/-- `Date.ltB` unfolded to arithmetic. -/
theorem Date.ltB_iff (a b : Date) :
    Date.ltB a b = true ↔
      (a.year < b.year ∨ (a.year = b.year ∧
        (a.month < b.month ∨ (a.month = b.month ∧ a.day < b.day)))) := by
  cases a with
  | mk ay am ad =>
    cases b with
    | mk byr bm bd =>
      simp [Date.ltB, Nat.blt_eq]

/-- `datetime.date` comparison is asymmetric. -/
theorem Date.ltB_asymm (a b : Date) (h : Date.ltB a b = true) :
    Date.ltB b a = false := by
  rw [Date.ltB_iff] at h
  cases hc : Date.ltB b a
  · rfl
  · rw [Date.ltB_iff] at hc
    omega

/-- Equality of dates, fieldwise. -/
theorem Date.eq_iff (a b : Date) :
    a = b ↔ (a.year = b.year ∧ a.month = b.month ∧ a.day = b.day) := by
  cases a; cases b; simp [Date.mk.injEq]

/-- `datetime.date` comparison is total: two distinct dates compare. -/
theorem Date.ltB_total (a b : Date) (hne : a ≠ b)
    (h : Date.ltB a b = false) : Date.ltB b a = true := by
  cases hc : Date.ltB b a
  · exfalso
    rw [ne_eq, Date.eq_iff] at hne
    rw [← Bool.not_eq_true, Date.ltB_iff] at h hc
    omega
  · rfl

/-- The inner task loop distributes over list append, componentwise. -/
theorem evalTasks_append (hoy : Date) (nombre : String)
    (l1 l2 : List Task) :
    evalTasks hoy nombre (l1 ++ l2) =
      ((evalTasks hoy nombre l1).1 ++ (evalTasks hoy nombre l2).1,
       (evalTasks hoy nombre l1).2 ++ (evalTasks hoy nombre l2).2) := by
  induction l1 with
  | nil => simp [evalTasks]
  | cons t ts ih =>
    simp only [List.cons_append, evalTasks, ih]
    cases evalTask hoy nombre t <;> simp [ih]

/-- The task loop on a single task, by evaluation outcome. -/
theorem evalTasks_singleton (hoy : Date) (nombre : String) (t : Task) :
    evalTasks hoy nombre [t] =
      (match evalTask hoy nombre t with
       | .actionable e => ([(t.nombre, e)], [])
       | .badDate w => ([], [w])
       | _ => ([], [])) := by
  cases h : evalTask hoy nombre t <;> simp [evalTasks, h]

/-- With a resolving sender domain, one student's loop iteration never
raises and emits exactly `studentEvents`. -/
theorem dispatchStudent_eq (cfg : Config) (tr : String → Option String)
    (hoy : Date) (al : Student) (dom : String)
    (hdom : emailUserDomain cfg.EMAIL_USER = Except.ok dom) :
    dispatchStudent cfg tr hoy al =
      ⟨studentEvents cfg tr hoy al dom,
       (evalTasks hoy al.nombre al.tareas_pendientes).2, none⟩ := by
  unfold dispatchStudent studentEvents
  cases h : (evalTasks hoy al.nombre al.tareas_pendientes).1.isEmpty <;>
    simp [h, hdom]

/-- In every case, the warnings one iteration adds to `data_warnings`
are exactly those produced by the task loop. -/
theorem dispatchStudent_warnings (cfg : Config) (tr : String → Option String)
    (hoy : Date) (al : Student) :
    (dispatchStudent cfg tr hoy al).warnings =
      (evalTasks hoy al.nombre al.tareas_pendientes).2 := by
  unfold dispatchStudent
  cases h : (evalTasks hoy al.nombre al.tareas_pendientes).1.isEmpty
  · cases hd : emailUserDomain cfg.EMAIL_USER <;> simp [h, hd]
  · simp [h]

/-- With a resolving sender domain, the student loop never raises, its
events are the concatenation of the independent per-student events, and
`data_warnings` is the concatenation of the per-student warnings. -/
theorem dispatchAll_eq (cfg : Config) (tr : String → Option String)
    (hoy : Date) (dom : String)
    (hdom : emailUserDomain cfg.EMAIL_USER = Except.ok dom)
    (l : List Student) :
    dispatchAll cfg tr hoy l =
      ⟨(l.map (fun al => studentEvents cfg tr hoy al dom)).flatten,
       (l.map (fun al =>
         (evalTasks hoy al.nombre al.tareas_pendientes).2)).flatten,
       none⟩ := by
  induction l with
  | nil => simp [dispatchAll]
  | cons al rest ih =>
    simp [dispatchAll, dispatchStudent_eq cfg tr hoy al dom hdom, ih]

/-- With a resolving sender domain, the whole dispatcher never raises and
its trace is the per-student events followed by the warning flush. -/
theorem runDispatch_eq (cfg : Config) (tr : String → Option String)
    (hoy : Date) (dom : String)
    (hdom : emailUserDomain cfg.EMAIL_USER = Except.ok dom)
    (l : List Student) :
    runDispatch cfg tr hoy l =
      ⟨(l.map (fun al => studentEvents cfg tr hoy al dom)).flatten
         ++ flushEvents cfg (dispatchAll cfg tr hoy l).warnings,
       (dispatchAll cfg tr hoy l).warnings, none⟩ := by
  unfold runDispatch
  rw [dispatchAll_eq cfg tr hoy dom hdom]

/-- No per-student event is the batched data-quality alert: its subject
is either the reminder attempt or the delivery-failure alert subject. -/
theorem studentEvents_no_flush (cfg : Config) (tr : String → Option String)
    (hoy : Date) (al : Student) (dom : String) :
    (studentEvents cfg tr hoy al dom).filter isFlushAlert = [] := by
  cases hl : (evalTasks hoy al.nombre al.tareas_pendientes).1 with
  | nil => simp [studentEvents, hl]
  | cons p ps =>
    simp only [studentEvents, hl, List.isEmpty_cons, Bool.false_eq_true,
      if_false, send_email_reminder]
    cases tr al.email
    · rfl
    · rfl

/-- Joined per-student events contain no batched data-quality alert. -/
theorem flatten_studentEvents_no_flush (cfg : Config)
    (tr : String → Option String) (hoy : Date) (dom : String)
    (l : List Student) :
    ((l.map (fun al => studentEvents cfg tr hoy al dom)).flatten).filter
      isFlushAlert = [] := by
  induction l with
  | nil => simp
  | cons al rest ih =>
    simp [List.filter_append, ih, studentEvents_no_flush]

/-- The row loop produces one student per row. -/
theorem loadRows_length (k : Nat) (rs : List Row) :
    (loadRows k rs).length = rs.length := by
  induction rs generalizing k with
  | nil => rfl
  | cons r rs ih => simp [loadRows, ih]

/-- The ids assigned by the row loop starting at index `k` are the
consecutive integers `k+1, k+2, ...`. -/
theorem loadRows_map_id (k : Nat) (rs : List Row) :
    (loadRows k rs).map Student.id = List.range' (k + 1) rs.length := by
  induction rs generalizing k with
  | nil => rfl
  | cons r rs ih => simp [loadRows, List.range', mkStudent, ih]

/-- The student at position `i` comes from the row at position `i`. -/
theorem loadRows_getElem? (k i : Nat) (rs : List Row) :
    (loadRows k rs)[i]? = (rs[i]?).map (fun r => mkStudent (k + i) r) := by
  induction rs generalizing k i with
  | nil => simp [loadRows]
  | cons r rs ih =>
    cases i with
    | zero => simp [loadRows]
    | succ n =>
      have := ih (k + 1) n
      simp only [loadRows, List.getElem?_cons_succ, this]
      have harith : k + 1 + n = k + (n + 1) := by omega
      rw [harith]

/-- Every student the row loop produces has exactly one task, named with
the fixed label and not submitted. -/
theorem loadRows_mem (k : Nat) (rs : List Row) :
    ∀ s ∈ loadRows k rs, s.tareas_pendientes.length = 1 ∧
      ∀ ta ∈ s.tareas_pendientes,
        ta.nombre = taskLabel ∧ ta.entregado = false := by
  induction rs generalizing k with
  | nil => simp [loadRows]
  | cons r rs ih =>
    intro s hs
    simp only [loadRows, List.mem_cons] at hs
    rcases hs with h | h
    · subst h
      refine ⟨rfl, ?_⟩
      intro ta hta
      simp only [mkStudent, List.mem_singleton] at hta
      subst hta
      exact ⟨rfl, rfl⟩
    · exact ih (k + 1) s h

/-- `takeWhile` of non-space characters: splits off exactly the leading
space-free block. -/
theorem takeWhile_no_space (l1 l2 : List Char)
    (h : ∀ c ∈ l1, (c != ' ') = true) :
    (l1 ++ ' ' :: l2).takeWhile (fun c => c != ' ') = l1 ∧
    l1.takeWhile (fun c => c != ' ') = l1 := by
  induction l1 with
  | nil => simp [List.takeWhile]
  | cons a as ih =>
    have ha := h a (by simp)
    have hrec := ih fun c hc => h c (by simp [hc])
    simp [List.takeWhile, ha, hrec.1, hrec.2]

/-- `str(x).split(" ")[0]` keeps a space-free prefix verbatim, both when
a time-of-day component follows after a space and when nothing does. -/
theorem takeDatePart_of_split (d rest : String)
    (h : ∀ c ∈ d.toList, (c != ' ') = true) :
    takeDatePart (d ++ " " ++ rest) = d ∧ takeDatePart d = d := by
  obtain ⟨dl⟩ := d
  obtain ⟨rl⟩ := rest
  have hlist : (String.mk dl ++ " " ++ String.mk rl).toList
      = dl ++ ' ' :: rl := by
    show (dl ++ [' ']) ++ rl = dl ++ ' ' :: rl
    simp
  have hw := takeWhile_no_space dl rl h
  constructor
  · show String.mk (((String.mk dl ++ " " ++ String.mk rl).toList).takeWhile
      (fun c => c != ' ')) = String.mk dl
    rw [hlist, hw.1]
  · show String.mk ((dl.takeWhile (fun c => c != ' '))) = String.mk dl
    rw [hw.2]

/-- On the success branch the loader is the row loop and emits nothing. -/
theorem load_success_eq (cfg : Config) (path : String) (t : Table)
    (hext : (pyEndsWith path ".xlsx" || pyEndsWith path ".csv") = true)
    (hcols : (requiredCols.all
      (fun c => (t.columns.map pyLower).contains c)) = true) :
    load_students_from_excel cfg path (FileContent.table t)
      = (loadRows 0 t.rows, []) := by
  unfold load_students_from_excel
  dsimp only
  rw [hext, hcols]
  rfl

/-! ## Claims -/

/-- C2: for an unsubmitted task whose due date parses as the calendar
date `fecha`: if `fecha` equals today the task is classified with the
due-today label and added to the reminder list; if `fecha` is strictly
after today it receives no status and contributes neither a reminder
entry nor a warning; otherwise (strictly before today) it is classified
overdue with a status text retaining the original due-date string. -/
theorem C2_deadline_classification (hoy fecha : Date) (nombre : String)
    (t : Task) (ts1 ts2 : List Task)
    (hsub : t.entregado = false)
    (hparse : parseDateYMD t.vencimiento = some fecha) :
    evalTask hoy nombre t =
      (if fecha = hoy then TaskEval.actionable estadoHoy
       else if Date.ltB hoy fecha then TaskEval.notYetDue
       else TaskEval.actionable (estadoExpirado t.vencimiento)) ∧
    evalTasks hoy nombre (ts1 ++ t :: ts2) =
      ((evalTasks hoy nombre ts1).1
         ++ (if fecha = hoy then [(t.nombre, estadoHoy)]
             else if Date.ltB hoy fecha then []
             else [(t.nombre, estadoExpirado t.vencimiento)])
         ++ (evalTasks hoy nombre ts2).1,
       (evalTasks hoy nombre ts1).2 ++ (evalTasks hoy nombre ts2).2) := by
  have h1 : evalTask hoy nombre t =
      (if fecha = hoy then TaskEval.actionable estadoHoy
       else if Date.ltB hoy fecha then TaskEval.notYetDue
       else TaskEval.actionable (estadoExpirado t.vencimiento)) := by
    by_cases he : fecha = hoy
    · simp [evalTask, hsub, hparse, he]
    · cases hlt : Date.ltB hoy fecha
      · have hbt : Date.ltB fecha hoy = true :=
          Date.ltB_total hoy fecha (fun hh => he hh.symm) hlt
        simp [evalTask, hsub, hparse, he, hlt, hbt]
      · have hbf : Date.ltB fecha hoy = false := Date.ltB_asymm hoy fecha hlt
        simp [evalTask, hsub, hparse, he, hlt, hbf]
  refine ⟨h1, ?_⟩
  rw [evalTasks_append]
  have h2 : evalTasks hoy nombre (t :: ts2) =
      ((if fecha = hoy then [(t.nombre, estadoHoy)]
        else if Date.ltB hoy fecha then []
        else [(t.nombre, estadoExpirado t.vencimiento)])
         ++ (evalTasks hoy nombre ts2).1,
       (evalTasks hoy nombre ts2).2) := by
    simp only [evalTasks, h1]
    by_cases he : fecha = hoy
    · simp [he]
    · cases hlt : Date.ltB hoy fecha <;> simp [he, hlt]
  rw [h2]
  simp [List.append_assoc]

/-- Witness for C2 at a concrete task due exactly on the run date. -/
theorem C2_witness :
    evalTask hoy0 "Ana" tareaHoy = TaskEval.actionable estadoHoy ∧
    evalTasks hoy0 "Ana" [tareaHoy] = ([(taskLabel, estadoHoy)], []) := by
  have h := C2_deadline_classification hoy0 ⟨2026, 10, 12⟩ "Ana" tareaHoy
    [] [] rfl (by decide)
  exact ⟨h.1.trans (by decide), h.2.trans (by decide)⟩

/-- C6: a task whose due date does not parse never raises out of the
evaluator: it is classified as a skip carrying exactly one human-readable
warning naming the student, the task and the raw value; within the task
loop it contributes that single warning and no reminder entry, and the
iteration's contribution to the run-scoped `data_warnings` collection is
exactly the task loop's warning list. -/
theorem C6_bad_date_warning (cfg : Config) (tr : String → Option String)
    (hoy : Date) (al : Student) (t : Task) (ts1 ts2 : List Task)
    (hsub : t.entregado = false)
    (hbad : parseDateYMD t.vencimiento = none)
    (htasks : al.tareas_pendientes = ts1 ++ t :: ts2) :
    evalTask hoy al.nombre t =
      TaskEval.badDate (warningMsg al.nombre t.nombre t.vencimiento) ∧
    evalTasks hoy al.nombre al.tareas_pendientes =
      ((evalTasks hoy al.nombre ts1).1 ++ (evalTasks hoy al.nombre ts2).1,
       (evalTasks hoy al.nombre ts1).2
         ++ warningMsg al.nombre t.nombre t.vencimiento
             :: (evalTasks hoy al.nombre ts2).2) ∧
    (dispatchStudent cfg tr hoy al).warnings =
      (evalTasks hoy al.nombre al.tareas_pendientes).2 := by
  have h1 : evalTask hoy al.nombre t =
      TaskEval.badDate (warningMsg al.nombre t.nombre t.vencimiento) := by
    simp [evalTask, hsub, hbad]
  refine ⟨h1, ?_, dispatchStudent_warnings cfg tr hoy al⟩
  rw [htasks, evalTasks_append]
  have h2 : evalTasks hoy al.nombre (t :: ts2) =
      ((evalTasks hoy al.nombre ts2).1,
       warningMsg al.nombre t.nombre t.vencimiento
         :: (evalTasks hoy al.nombre ts2).2) := by
    simp only [evalTasks, h1]
  rw [h2]

/-- Witness for C6 at a concrete student with due date `not-a-date`. -/
theorem C6_witness :
    evalTask hoy0 "Benito" tareaBad =
      TaskEval.badDate (warningMsg "Benito" taskLabel "not-a-date") ∧
    evalTasks hoy0 "Benito" [tareaBad] =
      ([], [warningMsg "Benito" taskLabel "not-a-date"]) ∧
    (dispatchStudent cfgFull trOk hoy0 alumnoBad).warnings =
      [warningMsg "Benito" taskLabel "not-a-date"] := by
  have h := C6_bad_date_warning cfgFull trOk hoy0 alumnoBad tareaBad
    [] [] rfl (by decide) rfl
  refine ⟨h.1, h.2.1.trans (by decide), h.2.2.trans (by decide)⟩

/-- C3: per student, the iteration never raises (given a resolving sender
domain) and attempts no reminder send when the student has no actionable
task; with at least one actionable task it attempts exactly one
consolidated send, to the student's address, whose body is composed from
the full list of the student's actionable `(task, status)` pairs. -/
theorem C3_one_consolidated_send (cfg : Config) (tr : String → Option String)
    (hoy : Date) (al : Student) (dom : String)
    (hdom : emailUserDomain cfg.EMAIL_USER = Except.ok dom) :
    (dispatchStudent cfg tr hoy al).crash = none ∧
    ((dispatchStudent cfg tr hoy al).events).filter isReminder =
      (if (evalTasks hoy al.nombre al.tareas_pendientes).1.isEmpty then []
       else [Event.reminderAttempt al.email reminderSubject
         (composeEmailBody al.nombre
           (listaTareasStr (evalTasks hoy al.nombre al.tareas_pendientes).1)
           dom)
         (tr al.email).isNone]) := by
  rw [dispatchStudent_eq cfg tr hoy al dom hdom]
  refine ⟨rfl, ?_⟩
  show (studentEvents cfg tr hoy al dom).filter isReminder = _
  cases hl : (evalTasks hoy al.nombre al.tareas_pendientes).1 with
  | nil => simp [studentEvents, hl]
  | cons p ps =>
    simp only [studentEvents, hl, List.isEmpty_cons, Bool.false_eq_true,
      if_false, send_email_reminder]
    cases htr : tr al.email <;>
      simp [isReminder, mkAlert, List.filter]

set_option maxRecDepth 10000 in
/-- Witness for C3: one student with one task due today, send succeeds. -/
theorem C3_witness :
    (dispatchStudent cfgFull trOk hoy0 alumnoHoy).crash = none ∧
    ((dispatchStudent cfgFull trOk hoy0 alumnoHoy).events).filter isReminder =
      [Event.reminderAttempt "ana@example.com" reminderSubject
        (composeEmailBody "Ana" (listaTareasStr [(taskLabel, estadoHoy)])
          "uni.edu") true] := by
  have h := C3_one_consolidated_send cfgFull trOk hoy0 alumnoHoy "uni.edu" rfl
  exact ⟨h.1, h.2.trans (by decide)⟩

/-- C7: given a resolving sender domain the run completes, and its trace
contains the batched data-quality alert exactly once when the run-scoped
warning collection is non-empty — a single `send_admin_alert` call whose
body covers all accumulated warnings — and not at all when it is empty. -/
theorem C7_batched_warning_flush (cfg : Config) (tr : String → Option String)
    (hoy : Date) (students : List Student) (dom : String)
    (hdom : emailUserDomain cfg.EMAIL_USER = Except.ok dom) :
    (runDispatch cfg tr hoy students).crash = none ∧
    ((runDispatch cfg tr hoy students).events).filter isFlushAlert =
      (if (dispatchAll cfg tr hoy students).warnings.isEmpty then []
       else [mkAlert cfg flushSubject
         (batchBody (dispatchAll cfg tr hoy students).warnings)]) := by
  rw [runDispatch_eq cfg tr hoy dom hdom]
  refine ⟨rfl, ?_⟩
  show ((students.map (fun al => studentEvents cfg tr hoy al dom)).flatten
      ++ flushEvents cfg (dispatchAll cfg tr hoy students).warnings).filter
      isFlushAlert = _
  rw [List.filter_append, flatten_studentEvents_no_flush, List.nil_append]
  unfold flushEvents
  cases hw : (dispatchAll cfg tr hoy students).warnings.isEmpty
  · simp [isFlushAlert, mkAlert]
  · simp

set_option maxRecDepth 10000 in
/-- Witness for C7: a roster with one bad-date student yields exactly one
batched alert carrying that warning. -/
theorem C7_witness :
    (runDispatch cfgFull trOk hoy0 [alumnoBad]).crash = none ∧
    ((runDispatch cfgFull trOk hoy0 [alumnoBad]).events).filter isFlushAlert =
      [mkAlert cfgFull flushSubject
        (batchBody [warningMsg "Benito" taskLabel "not-a-date"])] := by
  have h := C7_batched_warning_flush cfgFull trOk hoy0 [alumnoBad] "uni.edu" rfl
  exact ⟨h.1, h.2.trans (by decide)⟩

/-- C8: a failed reminder send produces exactly one SMTP attempt (no
retry) and exactly one admin alert carrying the recipient and the
underlying error; and — given a resolving sender domain — the run never
aborts: its trace is the concatenation of per-student traces, each
computed from that student alone, so one student's delivery failure
cannot affect evaluation or delivery for any other student. -/
theorem C8_failure_isolation (cfg : Config) (tr : String → Option String)
    (hoy : Date) (students : List Student) (dom : String)
    (subject body toEmail e : String)
    (hdom : emailUserDomain cfg.EMAIL_USER = Except.ok dom)
    (hfail : tr toEmail = some e) :
    send_email_reminder cfg tr toEmail subject body =
      (false,
        [Event.reminderAttempt toEmail subject body false,
         mkAlert cfg "FALLO DE ENVÍO DE CORREO A ESTUDIANTE"
           ("FALLO DE ENVÍO SMTP:\n\nError al enviar correo al alumno "
             ++ toEmail ++ ": " ++ e
             ++ "\n\nRevisa la configuración de EMAIL_USER y EMAIL_PASSWORD.")]) ∧
    (runDispatch cfg tr hoy students).crash = none ∧
    (runDispatch cfg tr hoy students).events =
      (students.map (fun al => studentEvents cfg tr hoy al dom)).flatten
        ++ flushEvents cfg (dispatchAll cfg tr hoy students).warnings := by
  refine ⟨by simp [send_email_reminder, hfail], ?_, ?_⟩ <;>
    rw [runDispatch_eq cfg tr hoy dom hdom]

/-- Witness for C8: a two-student roster where the first student's send
fails with `boom` and the second student's succeeds. -/
theorem C8_witness :
    send_email_reminder cfgFull trFailX "x@y.com" "s" "b" =
      (false,
        [Event.reminderAttempt "x@y.com" "s" "b" false,
         mkAlert cfgFull "FALLO DE ENVÍO DE CORREO A ESTUDIANTE"
           ("FALLO DE ENVÍO SMTP:\n\nError al enviar correo al alumno "
             ++ "x@y.com" ++ ": " ++ "boom"
             ++ "\n\nRevisa la configuración de EMAIL_USER y EMAIL_PASSWORD.")]) ∧
    (runDispatch cfgFull trFailX hoy0 [alumnoX, alumnoY]).crash = none ∧
    (runDispatch cfgFull trFailX hoy0 [alumnoX, alumnoY]).events =
      ([alumnoX, alumnoY].map
        (fun al => studentEvents cfgFull trFailX hoy0 al "uni.edu")).flatten
        ++ flushEvents cfgFull
            (dispatchAll cfgFull trFailX hoy0 [alumnoX, alumnoY]).warnings :=
  C8_failure_isolation cfgFull trFailX hoy0 [alumnoX, alumnoY] "uni.edu"
    "s" "b" "x@y.com" "boom" rfl (by decide)

/-- C4: loading a table that passes the extension and required-column
checks emits no alert and yields exactly one student record per data row,
with ids exactly `1..N` assigned in row order, each holding exactly one
task named with the fixed label and not submitted. -/
theorem C4_load_roster (cfg : Config) (path : String) (t : Table)
    (hext : (pyEndsWith path ".xlsx" || pyEndsWith path ".csv") = true)
    (hcols : (requiredCols.all
      (fun c => (t.columns.map pyLower).contains c)) = true) :
    (load_students_from_excel cfg path (FileContent.table t)).2 = [] ∧
    (load_students_from_excel cfg path (FileContent.table t)).1.length
      = t.rows.length ∧
    (load_students_from_excel cfg path (FileContent.table t)).1.map
      Student.id = List.range' 1 t.rows.length ∧
    ∀ s ∈ (load_students_from_excel cfg path (FileContent.table t)).1,
      s.tareas_pendientes.length = 1 ∧
      ∀ ta ∈ s.tareas_pendientes,
        ta.nombre = taskLabel ∧ ta.entregado = false := by
  rw [load_success_eq cfg path t hext hcols]
  refine ⟨rfl, loadRows_length 0 t.rows, ?_, loadRows_mem 0 t.rows⟩
  simpa using loadRows_map_id 0 t.rows

/-- Witness for C4 at a concrete two-row table with mixed-case headers. -/
theorem C4_witness :
    (load_students_from_excel cfgFull "alumnos_tareas.xlsx"
      (FileContent.table tDos)).2 = [] ∧
    (load_students_from_excel cfgFull "alumnos_tareas.xlsx"
      (FileContent.table tDos)).1.length = 2 ∧
    (load_students_from_excel cfgFull "alumnos_tareas.xlsx"
      (FileContent.table tDos)).1.map Student.id = [1, 2] := by
  have h := C4_load_roster cfgFull "alumnos_tareas.xlsx" tDos
    (by decide) (by decide)
  exact ⟨h.1, h.2.1.trans (by decide), h.2.2.1.trans (by decide)⟩

/-- C5 fails as stated: a loaded row whose due-date cell stringifies as
`not-a-date` gets that text verbatim as the task's `due_date`, which is
not in canonical `YYYY-MM-DD` form. -/
theorem C5_counterexample :
    ((load_students_from_excel cfgFull "alumnos.csv"
        (FileContent.table tNoDate)).1.map
      (fun s => s.tareas_pendientes.map Task.vencimiento))
      = [["not-a-date"]] ∧
    isCanonicalYMD "not-a-date" = false := by
  decide

/-- C5 (amended): for every loaded row, the task's `due_date` equals the
portion of the stringified due-date cell before the first space; a cell
of the form `<space-free part> <time-of-day>` — as spreadsheet timestamp
cells stringify — or a space-free cell keeps that part verbatim, so the
result is canonical `YYYY-MM-DD` exactly when that part is. -/
theorem C5_due_date_prefix (cfg : Config) (path : String) (t : Table)
    (d rest : String) (i : Nat)
    (hext : (pyEndsWith path ".xlsx" || pyEndsWith path ".csv") = true)
    (hcols : (requiredCols.all
      (fun c => (t.columns.map pyLower).contains c)) = true)
    (hd : ∀ c ∈ d.toList, (c != ' ') = true) :
    ((load_students_from_excel cfg path (FileContent.table t)).1[i]?).map
      (fun s => s.tareas_pendientes.map Task.vencimiento)
      = (t.rows[i]?).map (fun r => [takeDatePart r.vencimiento]) ∧
    takeDatePart (d ++ " " ++ rest) = d ∧
    takeDatePart d = d := by
  refine ⟨?_, takeDatePart_of_split d rest hd⟩
  rw [load_success_eq cfg path t hext hcols]
  show ((loadRows 0 t.rows)[i]?).map _ = _
  rw [loadRows_getElem? 0 i t.rows]
  cases hr : t.rows[i]? <;> simp [mkStudent]

set_option maxRecDepth 10000 in
/-- Witness for C5 (amended) at a pandas-style timestamp cell. -/
theorem C5_witness :
    ((load_students_from_excel cfgFull "alumnos.xlsx"
        (FileContent.table tTimestamp)).1[0]?).map
      (fun s => s.tareas_pendientes.map Task.vencimiento)
      = some ["2026-10-12"] ∧
    takeDatePart ("2026-10-12" ++ " " ++ "00:00:00") = "2026-10-12" := by
  have h := C5_due_date_prefix cfgFull "alumnos.xlsx" tTimestamp
    "2026-10-12" "00:00:00" 0 (by decide) (by decide) (by decide)
  exact ⟨h.1.trans (by decide), h.2.1⟩

/-- C9: the loader either takes its success branch and emits no alert, or
returns the empty list together with exactly one admin alert whose
subject is the failure category `loadOutcomeSubject` assigns to the
input; the four category subjects are pairwise distinct. -/
theorem C9_loader_alerts (cfg : Config) (path : String) (fs : FileContent) :
    ((loadOutcomeSubject path fs = none ∧
        (load_students_from_excel cfg path fs).2 = []) ∨
      (∃ subj body, loadOutcomeSubject path fs = some subj ∧
        (load_students_from_excel cfg path fs).1 = [] ∧
        (load_students_from_excel cfg path fs).2 = [mkAlert cfg subj body])) ∧
    ["FORMATO DE ARCHIVO INVÁLIDO", "ARCHIVO DE DATOS NO ENCONTRADO",
     "ERROR CRÍTICO EN LA LECTURA DE EXCEL/CSV",
     "COLUMNAS FALTANTES EN EXCEL/CSV"].Nodup := by
  refine ⟨?_, by decide⟩
  by_cases hext : (pyEndsWith path ".xlsx" || pyEndsWith path ".csv") = true
  · match fs with
    | .missing =>
      refine Or.inr ⟨"ARCHIVO DE DATOS NO ENCONTRADO",
        "Error: No se encontró el archivo " ++ path
          ++ ". El script no puede continuar.", ?_, ?_, ?_⟩
      · unfold loadOutcomeSubject; rw [hext]; rfl
      · unfold load_students_from_excel; rw [hext]; rfl
      · unfold load_students_from_excel; rw [hext]; rfl
    | .corrupt e =>
      refine Or.inr ⟨"ERROR CRÍTICO EN LA LECTURA DE EXCEL/CSV",
        "Error crítico al procesar el archivo Excel: " ++ e, ?_, ?_, ?_⟩
      · unfold loadOutcomeSubject; rw [hext]; rfl
      · unfold load_students_from_excel; rw [hext]; rfl
      · unfold load_students_from_excel; rw [hext]; rfl
    | .table t =>
      by_cases hcols : (requiredCols.all
          (fun c => (t.columns.map pyLower).contains c)) = true
      · refine Or.inl ⟨?_, ?_⟩
        · unfold loadOutcomeSubject; dsimp only; rw [hext, hcols]; rfl
        · unfold load_students_from_excel; dsimp only; rw [hext, hcols]; rfl
      · have hcolsF : (requiredCols.all
            (fun c => (t.columns.map pyLower).contains c)) = false := by
          revert hcols
          cases requiredCols.all (fun c => (t.columns.map pyLower).contains c)
          · intro _; rfl
          · intro hc; exact absurd rfl hc
        refine Or.inr ⟨"COLUMNAS FALTANTES EN EXCEL/CSV",
          "Error: El archivo Excel debe contener las columnas: "
            ++ pyListRepr requiredCols ++ ". Columnas encontradas: "
            ++ pyListRepr (t.columns.map pyLower), ?_, ?_, ?_⟩
        · unfold loadOutcomeSubject; dsimp only; rw [hext, hcolsF]; rfl
        · unfold load_students_from_excel; dsimp only; rw [hext, hcolsF]; rfl
        · unfold load_students_from_excel; dsimp only; rw [hext, hcolsF]; rfl
  · have hextF : (pyEndsWith path ".xlsx" || pyEndsWith path ".csv")
        = false := by
      revert hext
      cases pyEndsWith path ".xlsx" || pyEndsWith path ".csv"
      · intro _; rfl
      · intro hc; exact absurd rfl hc
    refine Or.inr ⟨"FORMATO DE ARCHIVO INVÁLIDO",
      "Error: El archivo debe ser .xlsx o .csv", ?_, ?_, ?_⟩
    · unfold loadOutcomeSubject; rw [hextF]; rfl
    · unfold load_students_from_excel; rw [hextF]; rfl
    · unfold load_students_from_excel; rw [hextF]; rfl

/-- Witness for C9 at a concrete unsupported path. -/
theorem C9_witness :
    ((loadOutcomeSubject "datos.txt" FileContent.missing = none ∧
        (load_students_from_excel cfgFull "datos.txt"
          FileContent.missing).2 = []) ∨
      (∃ subj body,
        loadOutcomeSubject "datos.txt" FileContent.missing = some subj ∧
        (load_students_from_excel cfgFull "datos.txt"
          FileContent.missing).1 = [] ∧
        (load_students_from_excel cfgFull "datos.txt"
          FileContent.missing).2 = [mkAlert cfgFull subj body])) ∧
    ["FORMATO DE ARCHIVO INVÁLIDO", "ARCHIVO DE DATOS NO ENCONTRADO",
     "ERROR CRÍTICO EN LA LECTURA DE EXCEL/CSV",
     "COLUMNAS FALTANTES EN EXCEL/CSV"].Nodup :=
  C9_loader_alerts cfgFull "datos.txt" FileContent.missing

/-- C10: the supported-format check is a case-sensitive suffix test:
every path that ends in neither lowercase `.xlsx` nor lowercase `.csv` —
including paths whose extension differs only in letter case — takes the
invalid-file-format branch, returning an empty list and the
invalid-format alert; the lowercase suffixes themselves are accepted and
proceed to the file read. -/
theorem C10_case_sensitive_extension (cfg : Config) (fs : FileContent)
    (path : String)
    (h1 : pyEndsWith path ".xlsx" = false)
    (h2 : pyEndsWith path ".csv" = false) :
    load_students_from_excel cfg path fs =
      ([], [mkAlert cfg "FORMATO DE ARCHIVO INVÁLIDO"
        "Error: El archivo debe ser .xlsx o .csv"]) ∧
    pyEndsWith "alumnos_tareas.XLSX" ".xlsx" = false ∧
    pyEndsWith "alumnos_tareas.CSV" ".csv" = false ∧
    pyEndsWith "alumnos_tareas.xlsx" ".xlsx" = true ∧
    pyEndsWith "alumnos_tareas.csv" ".csv" = true ∧
    load_students_from_excel cfg "alumnos_tareas.xlsx" FileContent.missing =
      ([], [mkAlert cfg "ARCHIVO DE DATOS NO ENCONTRADO"
        "Error: No se encontró el archivo alumnos_tareas.xlsx. El script no puede continuar."]) := by
  refine ⟨?_, by decide, by decide, by decide, by decide, rfl⟩
  simp [load_students_from_excel, h1, h2]

/-- Witness for C10: an uppercase `.XLSX` path is rejected as an invalid
format even though the file exists on disk in this scenario. -/
theorem C10_witness :
    load_students_from_excel cfgFull "alumnos_tareas.XLSX"
      FileContent.missing =
      ([], [mkAlert cfgFull "FORMATO DE ARCHIVO INVÁLIDO"
        "Error: El archivo debe ser .xlsx o .csv"]) :=
  (C10_case_sensitive_extension cfgFull FileContent.missing
    "alumnos_tareas.XLSX" (by decide) (by decide)).1

/-- C1 fails on the code: with `EMAIL_USER` unset (and therefore the
admin-alert channel degraded to a no-op) and a roster holding one student
whose single task is due today, the run does not complete — composing the
reminder body evaluates `EMAIL_USER.split("@")[1]`, which raises
`AttributeError` on `None`, so the process terminates abnormally before
any reminder send is attempted. -/
theorem C1_unset_credentials_crash :
    main_reminder_logic cfgUnset trOk fsHoy hoy0 =
      ([], some Crash.attributeErrorNoneSplit) := by
  decide

end Proyecto
